import Mathlib

/-!
# Verification of `get_cmb_data.py`

A shallow embedding of the single-file pipeline `src/get_cmb_data.py`
(fetch K-line data over HTTP with bounded retry, parse comma-joined
string records into typed rows, write a CSV file), together with
theorems settling the specification claims.

Modelling conventions:
* Python exceptions are modelled by `Except PyError`.
* Python `float` values are modelled as exact rationals `ℚ`; the
  builtin `float(str)` conversion is modelled by `pyFloat`, an exact
  decimal parser over the plain `[sign] digits [. digits]` literals the
  upstream API delivers (IEEE-754 rounding and the exponent/inf/nan
  literal forms are abstracted away).
* String operations (`str.split`, stripping, joining) are given
  structurally recursive definitions over the character list
  `String.data`, with the same semantics as the Python builtins used
  by the source.
* The decoded JSON response is modelled by the fields the program
  reads: `resp["data"]["klines"]`.  A missing key, or a `null` value
  where an object is required, is modelled as `none`.
* The network is modelled as an environment `Nat → Except PyError
  KlineResponse` giving the outcome of the n-th HTTP attempt
  (`requests.get` + `raise_for_status` + `.json()` combined).
* The filesystem is modelled as the content of the single path the
  program writes, `data/cmb.csv`.
-/

deriving instance DecidableEq for Except

/-- The Python exception kinds the script can raise. -/
inductive PyError where
  /-- `KeyError` / subscripting a missing or null JSON member. -/
  | keyError (k : String)
  /-- `IndexError: list index out of range` from `parts[i]`. -/
  | indexError
  /-- `ValueError` from `float(s)` on an unconvertible string. -/
  | valueError (s : String)
  /-- `requests` network/connection failure. -/
  | network (msg : String)
  /-- `HTTPError` raised by `response.raise_for_status()`. -/
  | httpStatus (code : Nat)
  /-- JSON decode failure from `response.json()`. -/
  | jsonDecode (msg : String)
deriving Repr, DecidableEq

/-- `str(e)` for the modelled exceptions. -/
def pyErrorMsg : PyError → String
  | .keyError k => k
  | .indexError => "list index out of range"
  | .valueError s => "could not convert string to float: " ++ s
  | .network m => m
  | .httpStatus c => "HTTP Error " ++ toString c
  | .jsonDecode m => m

/-- Split a character list on a separator character; mirrors Python
`str.split(sep)` for a one-character separator (no collapsing of empty
pieces, `[[]]` on the empty input). -/
def splitOnChar (sep : Char) : List Char → List (List Char)
  | [] => [[]]
  | c :: rest =>
    if c = sep then [] :: splitOnChar sep rest
    else
      match splitOnChar sep rest with
      | [] => [[c]]
      | g :: gs => (c :: g) :: gs

/-- Python `s.split(sep)` for a one-character separator. -/
def pySplit (s : String) (sep : Char) : List String :=
  (splitOnChar sep s.data).map String.mk

/-- Python whitespace characters stripped by `float(str)`. -/
def pyWhitespace (c : Char) : Bool :=
  c = ' ' || c = '\t' || c = '\n' || c = '\r' || c = '\x0b' || c = '\x0c'

/-- Strip leading and trailing whitespace from a character list. -/
def trimChars (cs : List Char) : List Char :=
  ((cs.dropWhile pyWhitespace).reverse.dropWhile pyWhitespace).reverse

/-- Numeric value of a list of decimal digit characters. -/
def digitsToNat (cs : List Char) : Nat :=
  cs.foldl (fun a c => a * 10 + (c.toNat - 48)) 0

/-- Unsigned part of Python `float(str)`: `digits`, `digits.digits`,
`digits.` or `.digits`, valued exactly as a rational. -/
def pyFloatUnsigned (cs : List Char) : Option ℚ :=
  match splitOnChar '.' cs with
  | [ip] =>
      if !ip.isEmpty && ip.all Char.isDigit then
        some ((digitsToNat ip : ℚ))
      else none
  | [ip, fp] =>
      if (!ip.isEmpty || !fp.isEmpty) && ip.all Char.isDigit && fp.all Char.isDigit then
        some ((digitsToNat ip : ℚ)
          + (digitsToNat fp : ℚ) / (10 : ℚ) ^ fp.length)
      else none
  | _ => none

/-- Model of Python `float(str)`: strip surrounding whitespace, then an
optional sign followed by a plain decimal literal; `none` models a
raised `ValueError`. -/
def pyFloat (s : String) : Option ℚ :=
  match trimChars s.data with
  | '-' :: rest => (pyFloatUnsigned rest).map (fun q => -q)
  | '+' :: rest => pyFloatUnsigned rest
  | t => pyFloatUnsigned t

/-- Model of Python `int(x)` on a float: truncation toward zero. -/
def pyInt (q : ℚ) : ℤ :=
  if 0 ≤ q then ⌊q⌋ else ⌈q⌉

/-- One parsed row, the dict built for each kline record
(`{"Date": parts[0], "Open": float(parts[1]), ...}`). -/
structure PriceRecord where
  Date : String
  Open : ℚ
  Close : ℚ
  High : ℚ
  Low : ℚ
  Volume : ℤ
  Amount : ℚ
deriving Repr, DecidableEq

/-- Python list subscript `parts[i]`, raising `IndexError` when out of
range. -/
def getPart (parts : List String) (i : Nat) : Except PyError String :=
  match parts.get? i with
  | some s => Except.ok s
  | none => Except.error PyError.indexError

/-- `float(s)` as an `Except` computation raising `ValueError`. -/
def pyFloatE (s : String) : Except PyError ℚ :=
  match pyFloat s with
  | some q => Except.ok q
  | none => Except.error (PyError.valueError s)

/-- The per-record body of the parse loop: `parts = item.split(",")`
followed by the dict literal, whose value expressions Python evaluates
left to right, aborting at the first exception. -/
def parseRecord (item : String) : Except PyError PriceRecord :=
  let parts := pySplit item ','
  Except.bind (getPart parts 0) fun d =>
  Except.bind (Except.bind (getPart parts 1) pyFloatE) fun o =>
  Except.bind (Except.bind (getPart parts 2) pyFloatE) fun c =>
  Except.bind (Except.bind (getPart parts 3) pyFloatE) fun hi =>
  Except.bind (Except.bind (getPart parts 4) pyFloatE) fun lo =>
  Except.bind (Except.bind (getPart parts 5) pyFloatE) fun v =>
  Except.bind (Except.bind (getPart parts 6) pyFloatE) fun a =>
  Except.ok { Date := d, Open := o, Close := c, High := hi, Low := lo,
              Volume := pyInt v, Amount := a }

/-- The parse loop over `data`: records are parsed in input order and
the first exception aborts the whole run. -/
def parseKlines : List String → Except PyError (List PriceRecord)
  | [] => Except.ok []
  | item :: rest =>
    Except.bind (parseRecord item) fun r =>
    Except.bind (parseKlines rest) fun rs =>
    Except.ok (r :: rs)

/-- The `"klines"` member of the `"data"` member of the decoded JSON
body (`none` models a missing key or a `null` value). -/
structure KlineData where
  klines : Option (List String)
deriving Repr, DecidableEq

/-- The decoded JSON response body, restricted to the members the
program reads. -/
structure KlineResponse where
  data : Option KlineData
deriving Repr, DecidableEq

/-- `fetch_data()["data"]["klines"]`: subscripting raises when the
member is missing or null. -/
def getKlines (resp : KlineResponse) : Except PyError (List String) :=
  match resp.data with
  | none => Except.error (PyError.keyError "data")
  | some d =>
    match d.klines with
    | none => Except.error (PyError.keyError "klines")
    | some kl => Except.ok kl

/-! ## The Fetcher: `@retry(stop_max_attempt_number=3, wait_fixed=2000)`

The `retrying` decorator with these arguments retries the wrapped call
on any exception; after the third failed attempt the last exception is
re-raised.  The outcome of each HTTP attempt (request, status check and
JSON decoding together) is supplied by an environment indexed by the
attempt number. -/

/-- Bounded retry: run attempt `i`; with `n` retries remaining, retry
`i + 1` on any exception, otherwise re-raise the last exception. -/
def retryFrom (env : Nat → Except PyError KlineResponse) (i : Nat) :
    Nat → Except PyError KlineResponse
  | 0 => env i
  | n + 1 =>
    match env i with
    | Except.ok v => Except.ok v
    | Except.error _ => retryFrom env (i + 1) n

/-- `fetch_data()` under the retry decorator: at most 3 total attempts
(attempts 0, 1, 2 of the environment). -/
def fetch_data (env : Nat → Except PyError KlineResponse) :
    Except PyError KlineResponse :=
  retryFrom env 0 2

/-! ## The Writer: `pd.DataFrame(parsed_data)` and `df.to_csv(..., index=False)` -/

/-- The column order of the assembled frame: the key order of the
per-record dicts. -/
def dfColumns : List String :=
  ["Date", "Open", "Close", "High", "Low", "Volume", "Amount"]

/-- A tabular frame: column names and stringified cell rows. -/
structure DataFrame where
  columns : List String
  rows : List (List String)
deriving Repr, DecidableEq

/-- Double internal quote characters (CSV escaping). -/
def escapeQuotes : List Char → List Char
  | [] => []
  | '"' :: rest => '"' :: '"' :: escapeQuotes rest
  | c :: rest => c :: escapeQuotes rest

/-- Render one CSV cell: quote it when it holds a comma, a quote or a
newline, as the CSV writer does. -/
def csvCell (s : String) : String :=
  if s.data.contains ',' || s.data.contains '"' || s.data.contains '\n' then
    String.mk ('"' :: (escapeQuotes s.data ++ ['"']))
  else s

/-- Deterministic rendering of a modelled float value.  The digit-level
formatting of IEEE doubles is abstracted; no claim depends on the digit
string, only on its determinism. -/
def formatRat (q : ℚ) : String :=
  q.num.repr ++ "/" ++ q.den.repr

/-- The cells of one data row, in the frame's column order. -/
def recordCells (r : PriceRecord) : List String :=
  [csvCell r.Date, csvCell (formatRat r.Open), csvCell (formatRat r.Close),
   csvCell (formatRat r.High), csvCell (formatRat r.Low),
   csvCell r.Volume.repr, csvCell (formatRat r.Amount)]

/-- `pd.DataFrame(parsed_data)`: columns are the dict keys in insertion
order when the record list is non-empty, and there are no columns at
all when it is empty. -/
def pdDataFrame (recs : List PriceRecord) : DataFrame :=
  { columns := if recs.isEmpty then [] else dfColumns,
    rows := recs.map recordCells }

/-- Join strings with a separator. -/
def joinWith (sep : String) : List String → String
  | [] => ""
  | [x] => x
  | x :: y :: xs => x ++ sep ++ joinWith sep (y :: xs)

/-- The CSV rows written by `df.to_csv(..., index=False)`: the header
row (the comma-joined column names, with no index column) followed by
one comma-joined data row per record. -/
def toCsvLines (df : DataFrame) : List String :=
  joinWith "," df.columns :: df.rows.map (joinWith ",")

/-- The full text written to the output file: every CSV row is
terminated by a newline. -/
def toCsv (df : DataFrame) : String :=
  joinWith "\n" (toCsvLines df) ++ "\n"

/-! ## The top-level run: `try: ... except Exception as e: ...` -/

/-- The filesystem as the program sees it: the content at the single
path `data/cmb.csv` (`none` when no file exists there). -/
structure FileSystem where
  cmbCsv : Option String
deriving Repr, DecidableEq

/-- One run's observable outcome: resulting filesystem, the line
printed to standard output, and the process exit code. -/
structure RunResult where
  fs : FileSystem
  printed : String
  exitCode : Nat
deriving Repr, DecidableEq

/-- The success message printed after writing the file. -/
def successMsg : String := "数据获取成功，已保存到 data/cmb.csv"

/-- The failure message printed by the catch-all handler. -/
def failMsg (e : PyError) : String := "数据获取失败: " ++ pyErrorMsg e

/-- The Parser stage: `data = fetch_data()["data"]["klines"]` applied
to an already decoded response, followed by the parse loop. -/
def parseStage (resp : KlineResponse) : Except PyError (List PriceRecord) :=
  Except.bind (getKlines resp) parseKlines

/-- Fetch then parse: everything in the `try` block before the write. -/
def pipeline (env : Nat → Except PyError KlineResponse) :
    Except PyError (List PriceRecord) :=
  Except.bind (fetch_data env) parseStage

/-- The whole script body: on success of fetch and parse, overwrite
`data/cmb.csv` with the serialized frame and print the success message;
on any exception, leave the filesystem as it was and print the failure
message.  Either way the process exits with code 0. -/
def runScript (env : Nat → Except PyError KlineResponse)
    (fs₀ : FileSystem) : RunResult :=
  match pipeline env with
  | Except.ok recs =>
    { fs := { cmbCsv := some (toCsv (pdDataFrame recs)) },
      printed := successMsg, exitCode := 0 }
  | Except.error e =>
    { fs := fs₀, printed := failMsg e, exitCode := 0 }

/-! ## Helper lemmas -/

theorem exceptBind_eq_ok {α β : Type} {x : Except PyError α}
    {f : α → Except PyError β} {b : β} :
    Except.bind x f = Except.ok b ↔ ∃ a, x = Except.ok a ∧ f a = Except.ok b := by
  cases x <;> simp [Except.bind]

theorem exceptBind_isOk {α β : Type} {x : Except PyError α}
    {f : α → Except PyError β} :
    (Except.bind x f).isOk = true ↔ ∃ a, x = Except.ok a ∧ (f a).isOk = true := by
  cases x <;> simp [Except.bind, Except.isOk, Except.toBool]

theorem isOk_iff_exists_ok {α : Type} {x : Except PyError α} :
    x.isOk = true ↔ ∃ a, x = Except.ok a := by
  cases x <;> simp [Except.isOk, Except.toBool]

theorem getPart_eq_ok {parts : List String} {i : Nat} {s : String} :
    getPart parts i = Except.ok s ↔ parts.get? i = some s := by
  unfold getPart
  cases h : parts.get? i <;> simp

theorem pyFloatE_eq_ok {s : String} {q : ℚ} :
    pyFloatE s = Except.ok q ↔ pyFloat s = some q := by
  unfold pyFloatE
  cases h : pyFloat s <;> simp

/-- A record parses successfully exactly when its split has at least 7
fields and each of the fields at positions 1 through 6 converts with
`pyFloat`. -/
theorem parseRecord_isOk_iff (item : String) :
    (parseRecord item).isOk = true ↔
      7 ≤ (pySplit item ',').length ∧
      ∀ i, 1 ≤ i → i ≤ 6 →
        (((pySplit item ',').get? i).bind pyFloat).isSome = true := by
  constructor
  · intro h
    rw [isOk_iff_exists_ok] at h
    obtain ⟨r, h⟩ := h
    simp only [parseRecord, exceptBind_eq_ok, getPart_eq_ok, pyFloatE_eq_ok,
      Except.ok.injEq] at h
    obtain ⟨d, h0, o, ⟨s1, h1, hq1⟩, c, ⟨s2, h2, hq2⟩, hi, ⟨s3, h3, hq3⟩,
      lo, ⟨s4, h4, hq4⟩, v, ⟨s5, h5, hq5⟩, a, ⟨s6, h6, hq6⟩, hr⟩ := h
    simp only [List.get?_eq_getElem?] at h0 h1 h2 h3 h4 h5 h6
    constructor
    · by_contra hlt
      rw [List.getElem?_eq_none (by omega)] at h6
      exact Option.noConfusion h6
    · intro i h1i h6i
      simp only [List.get?_eq_getElem?]
      interval_cases i <;>
        simp [h1, h2, h3, h4, h5, h6, hq1, hq2, hq3, hq4, hq5, hq6]
  · rintro ⟨hlen, hconv⟩
    have gp : ∀ i, i ≤ 6 → ∃ s, (pySplit item ',').get? i = some s := by
      intro i hi
      cases h : (pySplit item ',').get? i with
      | none => exact absurd (List.get?_eq_none.mp h) (by omega)
      | some s => exact ⟨s, rfl⟩
    obtain ⟨s0, h0⟩ := gp 0 (by omega)
    obtain ⟨s1, h1⟩ := gp 1 (by omega)
    obtain ⟨s2, h2⟩ := gp 2 (by omega)
    obtain ⟨s3, h3⟩ := gp 3 (by omega)
    obtain ⟨s4, h4⟩ := gp 4 (by omega)
    obtain ⟨s5, h5⟩ := gp 5 (by omega)
    obtain ⟨s6, h6⟩ := gp 6 (by omega)
    have pf : ∀ i s, 1 ≤ i → i ≤ 6 → (pySplit item ',').get? i = some s →
        ∃ q, pyFloat s = some q := by
      intro i s hi1 hi6 hs
      have hc := hconv i hi1 hi6
      rw [hs] at hc
      simpa [Option.isSome_iff_exists] using hc
    obtain ⟨q1, hq1⟩ := pf 1 s1 (by omega) (by omega) h1
    obtain ⟨q2, hq2⟩ := pf 2 s2 (by omega) (by omega) h2
    obtain ⟨q3, hq3⟩ := pf 3 s3 (by omega) (by omega) h3
    obtain ⟨q4, hq4⟩ := pf 4 s4 (by omega) (by omega) h4
    obtain ⟨q5, hq5⟩ := pf 5 s5 (by omega) (by omega) h5
    obtain ⟨q6, hq6⟩ := pf 6 s6 (by omega) (by omega) h6
    rw [isOk_iff_exists_ok]
    refine ⟨⟨s0, q1, q2, q3, q4, pyInt q5, q6⟩, ?_⟩
    simp only [List.get?_eq_getElem?] at h0 h1 h2 h3 h4 h5 h6
    simp [parseRecord, getPart, pyFloatE, Except.bind,
      h0, h1, h2, h3, h4, h5, h6, hq1, hq2, hq3, hq4, hq5, hq6]

/-- Successful parsing preserves length and maps each input record to
the output row at the same position. -/
theorem parseKlines_eq_ok {kl : List String} {recs : List PriceRecord}
    (h : parseKlines kl = Except.ok recs) :
    recs.length = kl.length ∧
    ∀ i, (kl.get? i).map parseRecord = (recs.get? i).map Except.ok := by
  induction kl generalizing recs with
  | nil =>
    simp only [parseKlines, Except.ok.injEq] at h
    subst h
    simp
  | cons x rest ih =>
    simp only [parseKlines, exceptBind_eq_ok, Except.ok.injEq] at h
    obtain ⟨r, hr, rs, hrs, hrecs⟩ := h
    subst hrecs
    obtain ⟨hlen, hidx⟩ := ih hrs
    refine ⟨by simp [hlen], ?_⟩
    intro i
    cases i with
    | zero => simp [hr]
    | succ n => simpa using hidx n

/-- The parse loop succeeds exactly when every record parses. -/
theorem parseKlines_isOk_iff (kl : List String) :
    (parseKlines kl).isOk = true ↔
      ∀ item ∈ kl, (parseRecord item).isOk = true := by
  induction kl with
  | nil => simp [parseKlines, Except.isOk, Except.toBool]
  | cons x rest ih =>
    simp only [parseKlines, exceptBind_isOk, List.mem_cons]
    constructor
    · rintro ⟨r, hr, rs, hrs, -⟩
      intro item hitem
      rcases hitem with rfl | hmem
      · rw [isOk_iff_exists_ok]
        exact ⟨r, hr⟩
      · exact ih.mp (isOk_iff_exists_ok.mpr ⟨rs, hrs⟩) item hmem
    · intro hall
      obtain ⟨r, hr⟩ := isOk_iff_exists_ok.mp (hall x (Or.inl rfl))
      obtain ⟨rs, hrs⟩ := isOk_iff_exists_ok.mp
        (ih.mpr fun item hm => hall item (Or.inr hm))
      exact ⟨r, hr, rs, hrs, by simp [Except.isOk, Except.toBool]⟩

/-- Key-path extraction fails exactly when `data` or `data.klines` is
missing (or null). -/
theorem getKlines_isOk_false_iff (resp : KlineResponse) :
    (getKlines resp).isOk = false ↔
      resp.data = none ∨ ∃ d, resp.data = some d ∧ d.klines = none := by
  obtain ⟨_ | d⟩ := resp
  · simp [getKlines, Except.isOk, Except.toBool]
  · obtain ⟨_ | kl⟩ := d
    · simp [getKlines, Except.isOk, Except.toBool]
    · simp [getKlines, Except.isOk, Except.toBool]

/-- With an environment that immediately returns a decoded response,
the fetch succeeds with that response. -/
theorem fetch_data_const (resp : KlineResponse) :
    fetch_data (fun _ => Except.ok resp) = Except.ok resp := rfl

/-! ## Claims -/

/-- C1: For every kline record string, the Parser splits it on the
comma delimiter and maps the fields positionally to a `PriceRecord`:
field 1 becomes `Date` as the unchanged string, fields 2-5 become
`Open`, `Close`, `High`, `Low` as the float values parsed from the
corresponding field strings, field 6 becomes `Volume` as the integer
obtained by parsing the string as a float and truncating, and field 7
becomes `Amount` as a float value; each output record's numeric fields
equal exactly these conversions of the input field strings. -/
theorem C1_parser_field_mapping (item : String) (r : PriceRecord)
    (h : parseRecord item = Except.ok r) :
    (pySplit item ',').get? 0 = some r.Date ∧
    ((pySplit item ',').get? 1).bind pyFloat = some r.Open ∧
    ((pySplit item ',').get? 2).bind pyFloat = some r.Close ∧
    ((pySplit item ',').get? 3).bind pyFloat = some r.High ∧
    ((pySplit item ',').get? 4).bind pyFloat = some r.Low ∧
    (((pySplit item ',').get? 5).bind pyFloat).map pyInt = some r.Volume ∧
    ((pySplit item ',').get? 6).bind pyFloat = some r.Amount := by
  simp only [parseRecord, exceptBind_eq_ok, getPart_eq_ok, pyFloatE_eq_ok,
    Except.ok.injEq] at h
  obtain ⟨d, h0, o, ⟨s1, h1, hq1⟩, c, ⟨s2, h2, hq2⟩, hi, ⟨s3, h3, hq3⟩,
    lo, ⟨s4, h4, hq4⟩, v, ⟨s5, h5, hq5⟩, a, ⟨s6, h6, hq6⟩, hr⟩ := h
  subst hr
  simp only [List.get?_eq_getElem?] at h0 h1 h2 h3 h4 h5 h6 ⊢
  refine ⟨h0, ?_, ?_, ?_, ?_, ?_, ?_⟩ <;>
    simp [h1, h2, h3, h4, h5, h6, hq1, hq2, hq3, hq4, hq5, hq6]

/-- C1 witness: the mapping evaluated on a concrete record. -/
theorem C1_parser_field_mapping_witness :
    (pySplit "20100104,11,12,13,10,100,1000" ',').get? 0 = some "20100104" ∧
    ((pySplit "20100104,11,12,13,10,100,1000" ',').get? 1).bind pyFloat = some 11 ∧
    ((pySplit "20100104,11,12,13,10,100,1000" ',').get? 2).bind pyFloat = some 12 ∧
    ((pySplit "20100104,11,12,13,10,100,1000" ',').get? 3).bind pyFloat = some 13 ∧
    ((pySplit "20100104,11,12,13,10,100,1000" ',').get? 4).bind pyFloat = some 10 ∧
    (((pySplit "20100104,11,12,13,10,100,1000" ',').get? 5).bind pyFloat).map pyInt
      = some 100 ∧
    ((pySplit "20100104,11,12,13,10,100,1000" ',').get? 6).bind pyFloat = some 1000 :=
  C1_parser_field_mapping "20100104,11,12,13,10,100,1000"
    ⟨"20100104", 11, 12, 13, 10, 100, 1000⟩ (by decide)

/-- C2 counterexample: for the well-formed response whose `data.klines`
array is empty (N = 0), the output file is written but its single line
is the empty header row, not the seven field names, so the claim fails
at N = 0. -/
theorem C2_counterexample :
    runScript (fun _ => Except.ok ⟨some ⟨some []⟩⟩) ⟨none⟩
      = ⟨⟨some "\n"⟩, successMsg, 0⟩ ∧
    toCsvLines (pdDataFrame []) = [""] ∧
    ("" : String) ≠ joinWith "," dfColumns ∧
    toCsvLines (pdDataFrame []) ≠ [joinWith "," dfColumns] := by decide

/-- C2 (amended): for every well-formed response whose `data.klines`
array contains N ≥ 1 records, the output file contains exactly N+1 CSV
rows: a header row listing the seven field names in the order Date,
Open, Close, High, Low, Volume, Amount, followed by one data row per
record, with no row-index column. -/
theorem C2_header_and_row_count (resp : KlineResponse) (kl : List String)
    (recs : List PriceRecord) (fs₀ : FileSystem)
    (hk : getKlines resp = Except.ok kl)
    (hp : parseKlines kl = Except.ok recs)
    (hne : kl ≠ []) :
    (runScript (fun _ => Except.ok resp) fs₀).fs.cmbCsv
      = some (toCsv (pdDataFrame recs)) ∧
    toCsvLines (pdDataFrame recs)
      = joinWith "," dfColumns
          :: recs.map (fun r => joinWith "," (recordCells r)) ∧
    (toCsvLines (pdDataFrame recs)).length = kl.length + 1 := by
  have hlen := (parseKlines_eq_ok hp).1
  have hkl0 : kl.length ≠ 0 := fun h0 => hne (List.length_eq_zero.mp h0)
  have hne2 : recs.isEmpty = false := by
    cases recs with
    | nil => simp at hlen; omega
    | cons r rs => rfl
  have hpipe : pipeline (fun _ => Except.ok resp) = Except.ok recs := by
    simp [pipeline, fetch_data_const, Except.bind, parseStage, hk, hp]
  refine ⟨by simp [runScript, hpipe], ?_, ?_⟩
  · simp [toCsvLines, pdDataFrame, hne2]
  · simp [toCsvLines, pdDataFrame, hlen]

/-- C2 witness: a one-record response produces a two-line file with the
seven-name header. -/
theorem C2_header_and_row_count_witness :
    (runScript (fun _ => Except.ok ⟨some ⟨some ["20100104,11,12,13,10,100,1000"]⟩⟩)
        ⟨none⟩).fs.cmbCsv
      = some (toCsv (pdDataFrame [⟨"20100104", 11, 12, 13, 10, 100, 1000⟩])) ∧
    toCsvLines (pdDataFrame [⟨"20100104", 11, 12, 13, 10, 100, 1000⟩])
      = joinWith "," dfColumns
          :: [(⟨"20100104", 11, 12, 13, 10, 100, 1000⟩ : PriceRecord)].map
              (fun r => joinWith "," (recordCells r)) ∧
    (toCsvLines (pdDataFrame [⟨"20100104", 11, 12, 13, 10, 100, 1000⟩])).length
      = ["20100104,11,12,13,10,100,1000"].length + 1 :=
  C2_header_and_row_count ⟨some ⟨some ["20100104,11,12,13,10,100,1000"]⟩⟩
    ["20100104,11,12,13,10,100,1000"] [⟨"20100104", 11, 12, 13, 10, 100, 1000⟩]
    ⟨none⟩ (by decide) (by decide) (by decide)

/-- A record fails to parse exactly when its split has fewer than 7
fields or one of the fields at positions 1-6 does not convert. -/
theorem parseRecord_isOk_false_iff (item : String) :
    (parseRecord item).isOk = false ↔
      (pySplit item ',').length < 7 ∨
      ∃ i s, 1 ≤ i ∧ i ≤ 6 ∧ (pySplit item ',').get? i = some s ∧
        pyFloat s = none := by
  rw [← Bool.not_eq_true, parseRecord_isOk_iff]
  constructor
  · intro h
    rcases Nat.lt_or_ge (pySplit item ',').length 7 with hlt | hge
    · exact Or.inl hlt
    · right
      have h2 : ¬ ∀ i, 1 ≤ i → i ≤ 6 →
          (((pySplit item ',').get? i).bind pyFloat).isSome = true :=
        fun hf => h ⟨hge, hf⟩
      push_neg at h2
      obtain ⟨i, h1i, h6i, hns⟩ := h2
      obtain ⟨s, hs⟩ : ∃ s, (pySplit item ',').get? i = some s := by
        cases hg : (pySplit item ',').get? i with
        | none => exact absurd (List.get?_eq_none.mp hg) (by omega)
        | some s => exact ⟨s, rfl⟩
      refine ⟨i, s, h1i, h6i, hs, ?_⟩
      cases hpf : pyFloat s with
      | none => rfl
      | some q => exact absurd (by rw [hs]; simp [hpf]) hns
  · rintro (hlt | ⟨i, s, h1i, h6i, hs, hnone⟩) ⟨hlen, hforall⟩
    · omega
    · have hx := hforall i h1i h6i
      rw [hs] at hx
      simp [hnone] at hx

/-- C3 counterexample: a record that splits into 8 fields (more than 7)
does not make the run fail; the extra field is silently ignored and the
run succeeds, so the stated (iff) failure condition is false. -/
theorem C3_counterexample :
    (pySplit "20100104,1,2,3,4,5,6,7" ',').length = 8 ∧
    (parseRecord "20100104,1,2,3,4,5,6,7").isOk = true ∧
    runScript (fun _ => Except.ok ⟨some ⟨some ["20100104,1,2,3,4,5,6,7"]⟩⟩) ⟨none⟩
      = ⟨⟨some "Date,Open,Close,High,Low,Volume,Amount\n20100104,1/1,2/1,3/1,4/1,5,6/1\n"⟩,
          successMsg, 0⟩ := by decide

/-- C3 (amended): the Parser stage fails if and only if the key path
`data.klines` is absent from the decoded response, or some record
splits on commas into fewer than 7 fields, or some field among
positions 2-7 (of the first seven) cannot be converted to its target
numeric type; records splitting into more than 7 fields parse
successfully with the extra fields ignored. -/
theorem C3_parse_failure_iff (resp : KlineResponse) :
    (parseStage resp).isOk = false ↔
      (resp.data = none ∨
       (∃ d, resp.data = some d ∧ d.klines = none) ∨
       ∃ kl, getKlines resp = Except.ok kl ∧ ∃ item ∈ kl,
         ((pySplit item ',').length < 7 ∨
          ∃ i s, 1 ≤ i ∧ i ≤ 6 ∧ (pySplit item ',').get? i = some s ∧
            pyFloat s = none)) := by
  obtain ⟨_ | ⟨_ | kl⟩⟩ := resp
  · simp [parseStage, getKlines, Except.bind, Except.isOk, Except.toBool]
  · simp [parseStage, getKlines, Except.bind, Except.isOk, Except.toBool]
  · simp only [parseStage, getKlines, Except.bind]
    rw [← Bool.not_eq_true, parseKlines_isOk_iff]
    push_neg
    constructor
    · rintro ⟨item, hmem, hfail⟩
      right; right
      refine ⟨kl, rfl, item, hmem, ?_⟩
      exact (parseRecord_isOk_false_iff item).mp (by simpa using hfail)
    · rintro (h | ⟨d, hd, hn⟩ | ⟨kl', hkl', item, hmem, hfail⟩)
      · exact Option.noConfusion h
      · injection hd with h'
        subst h'
        exact Option.noConfusion hn
      · refine ⟨item, ?_, ?_⟩
        · have : kl' = kl := by
            injection hkl' with h'
            exact h'.symm
          exact this ▸ hmem
        · simpa using (parseRecord_isOk_false_iff item).mpr hfail

/-- C4: the Fetcher makes at most 3 total attempts (its result depends
only on the first three attempt outcomes); if the request fails on the
first 2 attempts and succeeds on the 3rd, it returns the successful
decoded payload; if all 3 attempts fail, the final failure propagates
and the run terminates with a reported failure and no output file
written. -/
theorem C4_retry_bound (e₁ e₂ e₃ : PyError) (v : KlineResponse)
    (fs₀ : FileSystem) (env env' : Nat → Except PyError KlineResponse)
    (h0 : env 0 = env' 0) (h1 : env 1 = env' 1) (h2 : env 2 = env' 2) :
    fetch_data env = fetch_data env' ∧
    fetch_data (fun n => if n = 0 then Except.error e₁
      else if n = 1 then Except.error e₂ else Except.ok v) = Except.ok v ∧
    fetch_data (fun n => if n = 0 then Except.error e₁
      else if n = 1 then Except.error e₂ else Except.error e₃)
      = Except.error e₃ ∧
    runScript (fun n => if n = 0 then Except.error e₁
      else if n = 1 then Except.error e₂ else Except.error e₃) fs₀
      = ⟨fs₀, failMsg e₃, 0⟩ := by
  have u : ∀ f : Nat → Except PyError KlineResponse, fetch_data f =
      match f 0 with
      | Except.ok w => Except.ok w
      | Except.error _ =>
        match f 1 with
        | Except.ok w => Except.ok w
        | Except.error _ => f 2 := fun f => rfl
  refine ⟨?_, rfl, rfl, rfl⟩
  rw [u env, u env', h0, h1, h2]

/-- C4 witness: concrete evaluation of the retry bound. -/
theorem C4_retry_bound_witness :
    fetch_data (fun _ => Except.error (PyError.network "conn reset"))
      = fetch_data (fun _ => Except.error (PyError.network "conn reset")) ∧
    fetch_data (fun n => if n = 0 then Except.error (PyError.network "timeout")
      else if n = 1 then Except.error (PyError.httpStatus 502)
      else Except.ok ⟨some ⟨some []⟩⟩) = Except.ok ⟨some ⟨some []⟩⟩ ∧
    fetch_data (fun n => if n = 0 then Except.error (PyError.network "timeout")
      else if n = 1 then Except.error (PyError.httpStatus 502)
      else Except.error (PyError.network "unreachable"))
      = Except.error (PyError.network "unreachable") ∧
    runScript (fun n => if n = 0 then Except.error (PyError.network "timeout")
      else if n = 1 then Except.error (PyError.httpStatus 502)
      else Except.error (PyError.network "unreachable")) ⟨some "old"⟩
      = ⟨⟨some "old"⟩, failMsg (PyError.network "unreachable"), 0⟩ :=
  C4_retry_bound (PyError.network "timeout") (PyError.httpStatus 502)
    (PyError.network "unreachable") ⟨some ⟨some []⟩⟩ ⟨some "old"⟩
    (fun _ => Except.error (PyError.network "conn reset"))
    (fun _ => Except.error (PyError.network "conn reset")) rfl rfl rfl

/-- C5: whenever the fetch or parse stage raises any exception, the
write step is never executed: the filesystem is left exactly as it was
(no file created, a pre-existing `data/cmb.csv` untouched), and the
failure message is printed. -/
theorem C5_no_write_on_failure (env : Nat → Except PyError KlineResponse)
    (fs₀ : FileSystem) (e : PyError)
    (h : pipeline env = Except.error e) :
    (runScript env fs₀).fs = fs₀ ∧
    (runScript env fs₀).printed = failMsg e := by
  simp [runScript, h]

/-- C5 witness: a response missing `data` leaves the old file as is. -/
theorem C5_no_write_on_failure_witness :
    (runScript (fun _ => Except.ok ⟨none⟩) ⟨some "old content"⟩).fs
      = ⟨some "old content"⟩ ∧
    (runScript (fun _ => Except.ok ⟨none⟩) ⟨some "old content"⟩).printed
      = failMsg (PyError.keyError "data") :=
  C5_no_write_on_failure (fun _ => Except.ok ⟨none⟩) ⟨some "old content"⟩
    (PyError.keyError "data") (by decide)

/-- C6: parse-and-write is deterministic in the decoded response body:
re-running the pipeline on an identical response leaves the same file
content, and on success the written bytes do not depend on the prior
state of the filesystem. -/
theorem C6_deterministic_output (resp : KlineResponse)
    (fsA fsB : FileSystem) :
    (runScript (fun _ => Except.ok resp)
        ((runScript (fun _ => Except.ok resp) fsA).fs)).fs.cmbCsv
      = (runScript (fun _ => Except.ok resp) fsA).fs.cmbCsv ∧
    ((parseStage resp).isOk = true →
      (runScript (fun _ => Except.ok resp) fsA).fs.cmbCsv
        = (runScript (fun _ => Except.ok resp) fsB).fs.cmbCsv) := by
  have hp : pipeline (fun _ => Except.ok resp) = parseStage resp := by
    simp [pipeline, fetch_data_const, Except.bind]
  constructor
  · cases h : parseStage resp <;> simp [runScript, hp, h]
  · intro hok
    obtain ⟨recs, h⟩ := isOk_iff_exists_ok.mp hok
    simp [runScript, hp, h]

/-- C6 witness: two runs on the same one-record response, from
different filesystem states, produce the same file bytes. -/
theorem C6_deterministic_output_witness :
    (runScript (fun _ => Except.ok ⟨some ⟨some ["20100104,11,12,13,10,100,1000"]⟩⟩)
        ((runScript (fun _ => Except.ok ⟨some ⟨some ["20100104,11,12,13,10,100,1000"]⟩⟩)
          ⟨none⟩).fs)).fs.cmbCsv
      = (runScript (fun _ => Except.ok ⟨some ⟨some ["20100104,11,12,13,10,100,1000"]⟩⟩)
          ⟨none⟩).fs.cmbCsv ∧
    (runScript (fun _ => Except.ok ⟨some ⟨some ["20100104,11,12,13,10,100,1000"]⟩⟩)
        ⟨none⟩).fs.cmbCsv
      = (runScript (fun _ => Except.ok ⟨some ⟨some ["20100104,11,12,13,10,100,1000"]⟩⟩)
          ⟨some "stale"⟩).fs.cmbCsv :=
  ⟨(C6_deterministic_output ⟨some ⟨some ["20100104,11,12,13,10,100,1000"]⟩⟩
      ⟨none⟩ ⟨some "stale"⟩).1,
   (C6_deterministic_output ⟨some ⟨some ["20100104,11,12,13,10,100,1000"]⟩⟩
      ⟨none⟩ ⟨some "stale"⟩).2 (by decide)⟩

/-- C7: the Parser produces the records in the same order as the input
`data.klines` array (position by position, with the length preserved),
and the Writer emits one data row per record in that same order;
records are never re-sorted. -/
theorem C7_order_preserved (kl : List String) (recs : List PriceRecord)
    (h : parseKlines kl = Except.ok recs) :
    recs.length = kl.length ∧
    (∀ i, (kl.get? i).map parseRecord = (recs.get? i).map Except.ok) ∧
    (pdDataFrame recs).rows = recs.map recordCells ∧
    toCsvLines (pdDataFrame recs)
      = joinWith "," (pdDataFrame recs).columns
          :: recs.map (fun r => joinWith "," (recordCells r)) := by
  obtain ⟨hlen, hidx⟩ := parseKlines_eq_ok h
  refine ⟨hlen, hidx, rfl, ?_⟩
  simp [toCsvLines, pdDataFrame]

/-- C7 witness: order preservation on a concrete two-record input. -/
theorem C7_order_preserved_witness :
    ([⟨"20100104", 11, 12, 13, 10, 100, 1000⟩,
      ⟨"20100105", 12, 13, 14, 11, 200, 2000⟩] : List PriceRecord).length
      = ["20100104,11,12,13,10,100,1000", "20100105,12,13,14,11,200,2000"].length ∧
    (∀ i, (["20100104,11,12,13,10,100,1000",
            "20100105,12,13,14,11,200,2000"].get? i).map parseRecord
      = (([⟨"20100104", 11, 12, 13, 10, 100, 1000⟩,
           ⟨"20100105", 12, 13, 14, 11, 200, 2000⟩] :
            List PriceRecord).get? i).map Except.ok) ∧
    (pdDataFrame [⟨"20100104", 11, 12, 13, 10, 100, 1000⟩,
        ⟨"20100105", 12, 13, 14, 11, 200, 2000⟩]).rows
      = ([⟨"20100104", 11, 12, 13, 10, 100, 1000⟩,
          ⟨"20100105", 12, 13, 14, 11, 200, 2000⟩] :
            List PriceRecord).map recordCells ∧
    toCsvLines (pdDataFrame [⟨"20100104", 11, 12, 13, 10, 100, 1000⟩,
        ⟨"20100105", 12, 13, 14, 11, 200, 2000⟩])
      = joinWith "," (pdDataFrame [⟨"20100104", 11, 12, 13, 10, 100, 1000⟩,
            ⟨"20100105", 12, 13, 14, 11, 200, 2000⟩]).columns
          :: ([⟨"20100104", 11, 12, 13, 10, 100, 1000⟩,
               ⟨"20100105", 12, 13, 14, 11, 200, 2000⟩] :
                List PriceRecord).map (fun r => joinWith "," (recordCells r)) :=
  C7_order_preserved
    ["20100104,11,12,13,10,100,1000", "20100105,12,13,14,11,200,2000"]
    [⟨"20100104", 11, 12, 13, 10, 100, 1000⟩,
     ⟨"20100105", 12, 13, 14, 11, 200, 2000⟩] (by decide)

/-- C8: for every run outcome the top-level handler terminates
normally with exit code 0; on success it prints the success message
naming the output path, and on any exception it prints the failure
message carrying the exception's text. -/
theorem C8_exit_and_messages (env : Nat → Except PyError KlineResponse)
    (fs₀ : FileSystem) :
    (runScript env fs₀).exitCode = 0 ∧
    (runScript env fs₀).printed =
      (match pipeline env with
       | Except.ok _ => successMsg
       | Except.error e => failMsg e) ∧
    successMsg = "数据获取成功，已保存到 " ++ "data/cmb.csv" ∧
    (∀ e, failMsg e = "数据获取失败: " ++ pyErrorMsg e) := by
  refine ⟨?_, ?_, rfl, fun e => rfl⟩ <;>
    cases h : pipeline env <;> simp [runScript, h]

/-- C9: for the input where `data.klines` is the empty list, the run
succeeds, but the written file does not contain the seven field names:
the frame built from an empty record list has no columns, so the
output CSV's header row is empty rather than
`Date,Open,Close,High,Low,Volume,Amount`. -/
theorem C9_empty_klines_header :
    runScript (fun _ => Except.ok ⟨some ⟨some []⟩⟩) ⟨none⟩
      = ⟨⟨some "\n"⟩, successMsg, 0⟩ ∧
    (pdDataFrame []).columns = [] ∧
    toCsvLines (pdDataFrame []) = [""] ∧
    ("" : String) ≠ "Date,Open,Close,High,Low,Volume,Amount" ∧
    joinWith "," dfColumns = "Date,Open,Close,High,Low,Volume,Amount" := by
  decide

/-- C10: the bounded retry applies to every exception raised inside
`fetch_data`, including a JSON-decoding failure of a successful HTTP
response, not only to network errors and bad statuses: any two failed
attempts of any kind are retried, and after a third failure of any
kind the last exception propagates. -/
theorem C10_retry_on_any_exception (m₁ m₂ : String) (v : KlineResponse)
    (e₁ e₂ e₃ : PyError) :
    fetch_data (fun n => if n = 0 then Except.error (PyError.jsonDecode m₁)
      else if n = 1 then Except.error (PyError.jsonDecode m₂)
      else Except.ok v) = Except.ok v ∧
    fetch_data (fun n => if n = 0 then Except.error e₁
      else if n = 1 then Except.error e₂ else Except.ok v) = Except.ok v ∧
    fetch_data (fun n => if n = 0 then Except.error e₁
      else if n = 1 then Except.error e₂ else Except.error e₃)
      = Except.error e₃ :=
  ⟨rfl, rfl, rfl⟩
